import Mathlib

/-!
Verification of the zephSynth web synthesizer control layer (src/src/App.js).

The source is a single React component. Its pure parts (the rotary knob's
value/angle conversions and the drag angular-delta normalization) are embedded
directly as functions over `ℚ`. Its stateful parts (the reducer store, the
audio-graph setup, the play/stop, frequency, filter and waveform handlers, and
the keyboard key handlers) are embedded as functions from a render-snapshot
state to a list of dispatched reducer actions plus a list of audio-API commands;
the resulting state is the left fold of the reducer over the dispatched actions,
matching React's batched dispatch semantics where every read of `state` inside
one event handler sees the same render snapshot.
-/

namespace ZephSynth

/-- The four oscillator waveforms of the `<select>` control. -/
inductive Waveform
  | sine
  | square
  | sawtooth
  | triangle
deriving DecidableEq, Repr

/-- `valueToAngle` from `CustomKnob` (App.js lines 46-48):
`((val - min) / (max - min)) * 270 - 135`. -/
def valueToAngle (val mn mx : ℚ) : ℚ :=
  ((val - mn) / (mx - mn)) * 270 - 135

/-- `angleToValue` from `CustomKnob` (App.js lines 50-53):
clamps the angle to `[-135, 135]` with `Math.max(-135, Math.min(135, angle))`,
then maps linearly back to `[min, max]`. -/
def angleToValue (angle mn mx : ℚ) : ℚ :=
  mn + ((Max.max (-135) (Min.min 135 angle) + 135) / 270) * (mx - mn)

/-- The angular-delta normalization inside `handleMouseMove`
(App.js lines 82-84): `if (angleDiff > 180) angleDiff -= 360;
if (angleDiff < -180) angleDiff += 360;`. -/
def normalizeAngleDiff (angleDiff : ℚ) : ℚ :=
  let d1 := if angleDiff > 180 then angleDiff - 360 else angleDiff
  if d1 < -180 then d1 + 360 else d1

/-- Helper: for a value inside `[mn, mx]` the raw (unclamped) angle lies in
`[-135, 135]`, so `angleToValue`'s clamp is the identity on it. -/
theorem valueToAngle_mem (mn mx v : ℚ) (hlt : mn < mx) (h1 : mn ≤ v)
    (h2 : v ≤ mx) : -135 ≤ valueToAngle v mn mx ∧ valueToAngle v mn mx ≤ 135 := by
  have hpos : (0 : ℚ) < mx - mn := by linarith
  have ht0 : 0 ≤ (v - mn) / (mx - mn) := div_nonneg (by linarith) hpos.le
  have ht1 : (v - mn) / (mx - mn) ≤ 1 := (div_le_one hpos).mpr (by linarith)
  unfold valueToAngle
  constructor <;> nlinarith

/-- C3: for every `v` with `mn ≤ v ≤ mx` and `mn < mx`, the round trip
`angleToValue (valueToAngle v mn mx) mn mx` returns exactly `v` (over exact
rational arithmetic the round trip is an identity, hence in particular within
any floating tolerance, and exact at the boundaries `v = mn` and `v = mx`). -/
theorem angleToValue_valueToAngle_roundTrip (mn mx v : ℚ) (hlt : mn < mx)
    (h1 : mn ≤ v) (h2 : v ≤ mx) : angleToValue (valueToAngle v mn mx) mn mx = v := by
  obtain ⟨hlo, hhi⟩ := valueToAngle_mem mn mx v hlt h1 h2
  have hne : mx - mn ≠ 0 := sub_ne_zero.mpr hlt.ne'
  unfold angleToValue
  rw [min_eq_right hhi, max_eq_right hlo]
  unfold valueToAngle
  field_simp
  ring

/-- Witness for C3 at the frequency knob's range `[20, 2000]` with `v = 440`. -/
theorem angleToValue_valueToAngle_roundTrip_witness :
    (20 : ℚ) < 2000 ∧ (20 : ℚ) ≤ 440 ∧ (440 : ℚ) ≤ 2000 ∧
      angleToValue (valueToAngle 440 20 2000) 20 2000 = 440 :=
  ⟨by norm_num, by norm_num, by norm_num,
    angleToValue_valueToAngle_roundTrip 20 2000 440 (by norm_num) (by norm_num)
      (by norm_num)⟩

/-- Helper: an angle below `-135` is clamped to `-135`, so `angleToValue`
returns the lower bound. -/
theorem angleToValue_below (mn mx a : ℚ) (h : a < -135) :
    angleToValue a mn mx = mn := by
  unfold angleToValue
  rw [min_eq_right (by linarith : a ≤ (135 : ℚ)), max_eq_left (by linarith)]
  ring

/-- Helper: an angle above `135` is clamped to `135`, so `angleToValue`
returns the upper bound. -/
theorem angleToValue_above (mn mx a : ℚ) (h : 135 < a) :
    angleToValue a mn mx = mx := by
  unfold angleToValue
  rw [min_eq_left (by linarith : (135 : ℚ) ≤ a), max_eq_right (by norm_num)]
  ring

/-- Helper: for `mn ≤ mx`, every `angleToValue` output lies in `[mn, mx]`. -/
theorem angleToValue_mem_range (mn mx a : ℚ) (hle : mn ≤ mx) :
    mn ≤ angleToValue a mn mx ∧ angleToValue a mn mx ≤ mx := by
  have hclo : -135 ≤ Max.max (-135 : ℚ) (Min.min 135 a) := le_max_left _ _
  have hchi : Max.max (-135 : ℚ) (Min.min 135 a) ≤ 135 :=
    max_le (by norm_num) (min_le_left _ _)
  unfold angleToValue
  constructor <;> nlinarith

/-- C8: `angleToValue` saturates: any input angle below `-135` yields exactly
`mn`, any input angle above `135` yields exactly `mx`, and for every angle the
result stays within `[mn, mx]` (no extrapolation, no wrap-around). -/
theorem angleToValue_saturates (mn mx a : ℚ) (hle : mn ≤ mx) :
    (a < -135 → angleToValue a mn mx = mn) ∧
    (a > 135 → angleToValue a mn mx = mx) ∧
    mn ≤ angleToValue a mn mx ∧ angleToValue a mn mx ≤ mx :=
  ⟨angleToValue_below mn mx a, angleToValue_above mn mx a,
    (angleToValue_mem_range mn mx a hle).1, (angleToValue_mem_range mn mx a hle).2⟩

/-- Witness for C8 at the frequency knob's range `[20, 2000]`, angle `-200`. -/
theorem angleToValue_saturates_witness :
    (20 : ℚ) ≤ 2000 ∧ ((-200 : ℚ) < -135 → angleToValue (-200) 20 2000 = 20) :=
  ⟨by norm_num, (angleToValue_saturates 20 2000 (-200) (by norm_num)).1⟩

/-- The two sequential `if`s of the normalization, written as one
case analysis: the second branch can only fire when the first did not. -/
theorem normalizeAngleDiff_eq (d : ℚ) :
    normalizeAngleDiff d =
      if d > 180 then d - 360 else if d < -180 then d + 360 else d := by
  simp only [normalizeAngleDiff]
  by_cases hgt : d > 180
  · rw [if_pos hgt, if_pos hgt, if_neg (by linarith : ¬ (d - 360 < -180))]
  · rw [if_neg hgt, if_neg hgt]

/-- C2 counterexample: the code's normalization leaves a raw delta of exactly
`-180` unchanged, and `-180` is not in the claimed half-open interval
`(-180, 180]`: the normalization's image is the closed interval `[-180, 180]`,
not `(-180, 180]`. -/
theorem normalizeAngleDiff_neg180_counterexample :
    normalizeAngleDiff (-180) = -180 ∧ ¬ (-180 < normalizeAngleDiff (-180)) := by
  have h : normalizeAngleDiff (-180) = -180 := by
    rw [normalizeAngleDiff_eq]; norm_num
  exact ⟨h, by rw [h]; norm_num⟩

/-- C2 amended: on the attainable domain `(-360, 360)` (raw deltas are
differences of two `atan2` results, each in `(-180, 180]` degrees), the
normalization maps into the closed interval `[-180, 180]`, subtracting `360`
when the delta exceeds `180`, adding `360` when it is below `-180` (never
both), and leaving every delta already inside `[-180, 180]` unchanged; in
particular `200` normalizes to `-160` and `-200` normalizes to `160`. -/
theorem normalizeAngleDiff_spec :
    normalizeAngleDiff 200 = -160 ∧ normalizeAngleDiff (-200) = 160 ∧
    ∀ d : ℚ, -360 < d → d < 360 →
      (-180 ≤ normalizeAngleDiff d ∧ normalizeAngleDiff d ≤ 180) ∧
      (180 < d → normalizeAngleDiff d = d - 360) ∧
      (d < -180 → normalizeAngleDiff d = d + 360) ∧
      (-180 ≤ d → d ≤ 180 → normalizeAngleDiff d = d) := by
  refine ⟨by rw [normalizeAngleDiff_eq]; norm_num,
    by rw [normalizeAngleDiff_eq]; norm_num, ?_⟩
  intro d h1 h2
  rw [normalizeAngleDiff_eq]
  by_cases hgt : d > 180
  · rw [if_pos hgt]
    exact ⟨⟨by linarith, by linarith⟩, fun _ => rfl, fun h => absurd h (by linarith),
      fun _ hle => absurd hgt (by linarith)⟩
  · rw [if_neg hgt]
    by_cases hlt : d < -180
    · rw [if_pos hlt]
      exact ⟨⟨by linarith, by linarith⟩, fun h => absurd h hgt, fun _ => rfl,
        fun hge _ => absurd hlt (by linarith)⟩
    · rw [if_neg hlt]
      exact ⟨⟨by linarith, by linarith⟩, fun h => absurd h hgt,
        fun h => absurd h hlt, fun _ _ => rfl⟩

/-- Witness for C2's amended theorem at `d = 200`. -/
theorem normalizeAngleDiff_spec_witness :
    (-360 : ℚ) < 200 ∧ (200 : ℚ) < 360 ∧
      (-180 ≤ normalizeAngleDiff 200 ∧ normalizeAngleDiff 200 ≤ 180) :=
  ⟨by norm_num, by norm_num,
    (normalizeAngleDiff_spec.2.2 200 (by norm_num) (by norm_num)).1⟩

/-! ## The reducer store (App.js lines 3-38)

Audio objects (`AudioContext`, oscillator, gain, filter nodes) are modelled as
handles: `Option Nat` identifiers allocated by a host counter, so that "the
same node" and "a duplicate node" are distinguishable. -/

/-- The actions dispatched to `reducer` (App.js lines 15-38). -/
inductive Action
  | setAudioContext (v : Option Nat)
  | setOscillator (v : Option Nat)
  | setGainNode (v : Option Nat)
  | setFilterNode (v : Option Nat)
  | setPlaying (b : Bool)
  | setFrequency (v : ℚ)
  | setFilterFrequency (v : ℚ)
  | setWaveform (w : Waveform)
  | setError (e : Option String)
deriving DecidableEq, Repr

/-- The store state (App.js lines 3-13). -/
structure SynthState where
  audioContext : Option Nat
  oscillator : Option Nat
  gainNode : Option Nat
  filterNode : Option Nat
  isPlaying : Bool
  frequency : ℚ
  filterFrequency : ℚ
  waveform : Waveform
  error : Option String
deriving DecidableEq, Repr

/-- `initialState` (App.js lines 3-13). -/
def initialState : SynthState :=
  { audioContext := none, oscillator := none, gainNode := none, filterNode := none,
    isPlaying := false, frequency := 440, filterFrequency := 1000,
    waveform := Waveform.sine, error := none }

/-- `reducer` (App.js lines 15-38): each action overwrites one field. -/
def reducer (state : SynthState) (action : Action) : SynthState :=
  match action with
  | .setAudioContext v => { state with audioContext := v }
  | .setOscillator v => { state with oscillator := v }
  | .setGainNode v => { state with gainNode := v }
  | .setFilterNode v => { state with filterNode := v }
  | .setPlaying b => { state with isPlaying := b }
  | .setFrequency v => { state with frequency := v }
  | .setFilterFrequency v => { state with filterFrequency := v }
  | .setWaveform w => { state with waveform := w }
  | .setError e => { state with error := e }

/-- React applies the dispatched actions of one event handler in dispatch
order to the store. -/
def applyActions (state : SynthState) (actions : List Action) : SynthState :=
  actions.foldl reducer state

/-! ## Audio-API commands

Each call into the Web Audio API issued by a handler is recorded as one
command, so that claims about which scheduling primitive was used
(`setValueAtTime` vs `setTargetAtTime`) and about duplicate node allocation
are statable. -/

/-- One call into the audio host API. -/
inductive Cmd
  | createContext (ctx : Nat)
  | createOscillator (node : Nat)
  | createGain (node : Nat)
  | createBiquadFilter (node : Nat)
  | oscSetType (w : Waveform)
  | oscFrequencySetValueAtTime (hz : ℚ)
  | gainSetValueAtTime (g : ℚ)
  | filterFrequencySetValueAtTime (hz : ℚ)
  | connect (src dst : Nat)
  | connectDestination (src : Nat)
  | oscStart
  | resume
  | gainSetTargetAtTime (target tc : ℚ)
deriving DecidableEq, Repr

/-- The audio host environment: whether `new AudioContext()` succeeds, whether
the context is in the `suspended` state, and a fresh-handle counter. -/
structure Host where
  ctxAvailable : Bool
  suspended : Bool
  nextId : Nat
deriving DecidableEq, Repr

/-! ## Event handlers (App.js lines 162-261)

Each handler is a function of the render-snapshot `state`; it returns the
updated host, the list of dispatched actions and the list of issued audio
commands. All reads of `state` inside one handler use the same snapshot
(React `useCallback` closures), matching the source. -/

/-- `setupAudio` (App.js lines 162-191): no-op when a context is already in
the snapshot; otherwise tries to create the context and the
oscillator→filter→gain chain (gain initialized to `0`, oscillator started),
dispatching the four handles; on context-creation failure dispatches only
`SET_ERROR`. -/
def setupAudio (host : Host) (state : SynthState) : Host × List Action × List Cmd :=
  if state.audioContext.isSome then (host, [], [])
  else if host.ctxAvailable then
    let ctx := host.nextId
    let osc := host.nextId + 1
    let gain := host.nextId + 2
    let filter := host.nextId + 3
    ({ host with nextId := host.nextId + 4 },
     [Action.setAudioContext (some ctx), Action.setOscillator (some osc),
      Action.setGainNode (some gain), Action.setFilterNode (some filter)],
     [Cmd.createContext ctx, Cmd.createOscillator osc, Cmd.createGain gain,
      Cmd.createBiquadFilter filter, Cmd.oscSetType state.waveform,
      Cmd.oscFrequencySetValueAtTime state.frequency, Cmd.gainSetValueAtTime 0,
      Cmd.filterFrequencySetValueAtTime state.filterFrequency,
      Cmd.connect osc filter, Cmd.connect filter gain, Cmd.connectDestination gain,
      Cmd.oscStart])
  else
    (host, [Action.setError (some "Failed to setup audio")], [])

/-- `handlePlayStop` (App.js lines 193-214): with no context in the snapshot it
only calls `setupAudio` and returns; otherwise it resumes a suspended context
and fades the gain with `setTargetAtTime` (time constant `0.015 = 3/200`)
toward `0` (stop) or `0.5` (start), flipping `isPlaying`. -/
def handlePlayStop (host : Host) (state : SynthState) : Host × List Action × List Cmd :=
  if state.audioContext.isNone then setupAudio host state
  else
    let resumeCmds := if host.suspended then [Cmd.resume] else []
    if state.isPlaying then
      (host, [Action.setPlaying false],
       resumeCmds ++ [Cmd.gainSetTargetAtTime 0 (3/200)])
    else
      (host, [Action.setPlaying true],
       resumeCmds ++ [Cmd.gainSetTargetAtTime (1/2) (3/200)])

/-- `handleFrequencyChange` (App.js lines 216-221). -/
def handleFrequencyChange (state : SynthState) (newFrequency : ℚ) :
    List Action × List Cmd :=
  ([Action.setFrequency newFrequency],
   if state.oscillator.isSome && state.audioContext.isSome then
     [Cmd.oscFrequencySetValueAtTime newFrequency]
   else [])

/-- `handleFilterChange` (App.js lines 223-228). -/
def handleFilterChange (state : SynthState) (newFilterFrequency : ℚ) :
    List Action × List Cmd :=
  ([Action.setFilterFrequency newFilterFrequency],
   if state.filterNode.isSome && state.audioContext.isSome then
     [Cmd.filterFrequencySetValueAtTime newFilterFrequency]
   else [])

/-- `handleWaveformChange` (App.js lines 230-236). -/
def handleWaveformChange (state : SynthState) (newWaveform : Waveform) :
    List Action × List Cmd :=
  ([Action.setWaveform newWaveform],
   if state.oscillator.isSome then [Cmd.oscSetType newWaveform] else [])

/-- The `onMouseDown`/`onTouchStart` handler of a keyboard key
(App.js lines 243-247): `if (!state.audioContext) setupAudio();
handleFrequencyChange(freq); if (!state.isPlaying) handlePlayStop();` —
all three reading the same snapshot. -/
def renderKeyMouseDown (host : Host) (state : SynthState) (freq : ℚ) :
    Host × List Action × List Cmd :=
  let r1 := if state.audioContext.isNone then setupAudio host state
            else (host, [], [])
  let r2 := handleFrequencyChange state freq
  let r3 := if !state.isPlaying then handlePlayStop r1.1 state
            else (r1.1, ([], []))
  (r3.1, r1.2.1 ++ r2.1 ++ r3.2.1, r1.2.2 ++ r2.2 ++ r3.2.2)

/-- The `onMouseUp`/`onTouchEnd` handler of a keyboard key
(App.js lines 248-250): `if (state.isPlaying) handlePlayStop();`. -/
def renderKeyMouseUp (host : Host) (state : SynthState) :
    Host × List Action × List Cmd :=
  if state.isPlaying then handlePlayStop host state else (host, ([], []))

/-- The twelve fixed key pitches passed to `renderKey`
(App.js lines 336-347). -/
def keyboardFrequencies : List ℚ :=
  [26163/100, 27718/100, 29366/100, 31113/100, 32963/100, 34923/100,
   36999/100, 392, 41530/100, 440, 46616/100, 49388/100]

/-- One user-interface event of the `WebSynth` component. The knob events
carry the drag's resulting indicator angle; the component's `onChange`
receives `angleToValue` of that angle with the knob's `min`/`max` props
(frequency knob: 20-2000, filter knob: 20-20000, App.js lines 291-308). -/
inductive Event
  | keyMouseDown (freq : ℚ)
  | keyMouseUp
  | playStopClick
  | frequencyKnob (angle : ℚ)
  | filterKnob (angle : ℚ)
  | waveformSelect (w : Waveform)
deriving DecidableEq, Repr

/-- Which events the rendered UI can actually deliver: keyboard keys only
carry one of the twelve fixed pitches. -/
def eventValid : Event → Prop
  | .keyMouseDown freq => freq ∈ keyboardFrequencies
  | _ => True

/-- Dispatch an event to its handler. -/
def stepFull (host : Host) (state : SynthState) : Event → Host × List Action × List Cmd
  | .keyMouseDown freq => renderKeyMouseDown host state freq
  | .keyMouseUp => renderKeyMouseUp host state
  | .playStopClick => handlePlayStop host state
  | .frequencyKnob angle =>
      (host, handleFrequencyChange state (angleToValue angle 20 2000))
  | .filterKnob angle =>
      (host, handleFilterChange state (angleToValue angle 20 20000))
  | .waveformSelect w =>
      (host, handleWaveformChange state w)

/-- One event step: the new store state is the fold of the dispatched actions
over the snapshot. -/
def step (host : Host) (state : SynthState) (e : Event) :
    Host × SynthState × List Cmd :=
  let r := stepFull host state e
  (r.1, applyActions state r.2.1, r.2.2)

/-- States reachable from `initialState` by UI events, under any host
behavior (context creation succeeding or failing, suspended or not, any
fresh-handle counter) at each step. -/
inductive Reachable : SynthState → Prop
  | init : Reachable initialState
  | next (host : Host) (e : Event) (s : SynthState) :
      Reachable s → eventValid e → Reachable (step host s e).2.1

/-! ## Claims about the handlers -/

/-- A concrete state with a live graph (context handle 0, oscillator 1,
gain 2, filter 3), stopped, used as a witness input below. -/
def liveState : SynthState :=
  { audioContext := some 0, oscillator := some 1, gainNode := some 2,
    filterNode := some 3, isPlaying := false, frequency := 440,
    filterFrequency := 1000, waveform := Waveform.sine, error := none }

/-- C10: when the render snapshot has no audio context, `handlePlayStop`
performs exactly `setupAudio` and returns; since no `setupAudio` action
touches `isPlaying`, the playing flag is unchanged by the whole invocation,
and the only gain command issued is the muted initialization
`gain.gain.setValueAtTime(0, ...)`, never a fade toward an audible level. -/
theorem handlePlayStop_noContext (host : Host) (s : SynthState)
    (h : s.audioContext = none) :
    handlePlayStop host s = setupAudio host s ∧
    (applyActions s (handlePlayStop host s).2.1).isPlaying = s.isPlaying ∧
    ∀ g tc : ℚ, Cmd.gainSetTargetAtTime g tc ∉ (handlePlayStop host s).2.2 := by
  have h1 : handlePlayStop host s = setupAudio host s := by
    simp [handlePlayStop, h]
  refine ⟨h1, ?_, ?_⟩
  · rw [h1]
    by_cases hca : host.ctxAvailable = true <;>
      simp [setupAudio, h, hca, applyActions, reducer]
  · rw [h1]
    intro g tc
    by_cases hca : host.ctxAvailable = true <;>
      simp [setupAudio, h, hca]

/-- Witness for C10 at the initial state with an available context. -/
theorem handlePlayStop_noContext_witness :
    initialState.audioContext = none ∧
    (handlePlayStop ⟨true, false, 0⟩ initialState =
        setupAudio ⟨true, false, 0⟩ initialState ∧
      (applyActions initialState
          (handlePlayStop ⟨true, false, 0⟩ initialState).2.1).isPlaying =
        initialState.isPlaying ∧
      ∀ g tc : ℚ, Cmd.gainSetTargetAtTime g tc ∉
        (handlePlayStop ⟨true, false, 0⟩ initialState).2.2) :=
  ⟨rfl, handlePlayStop_noContext ⟨true, false, 0⟩ initialState rfl⟩

/-- C5 counterexample: the program's actual back-to-back `setupAudio` pattern
violates the claimed no-duplicate idempotence. On the first key press,
`renderKey`'s handler calls `setupAudio` and then `handlePlayStop`; both read
the same render snapshot (where `audioContext` is still absent), so
`setupAudio`'s guard passes twice and the body runs twice: the single
`keyMouseDown 440` event from `initialState` issues both `createContext 0`
and `createContext 4` and both `createOscillator 1` and `createOscillator 5`
(duplicate context, oscillator, gain, filter), and the committed state holds
the second handle `some 4`, not the first one allocated. -/
theorem setupAudio_duplicate_counterexample :
    initialState.audioContext = none ∧
    Cmd.createContext 0 ∈
      (step ⟨true, false, 0⟩ initialState (Event.keyMouseDown 440)).2.2 ∧
    Cmd.createContext 4 ∈
      (step ⟨true, false, 0⟩ initialState (Event.keyMouseDown 440)).2.2 ∧
    Cmd.createOscillator 1 ∈
      (step ⟨true, false, 0⟩ initialState (Event.keyMouseDown 440)).2.2 ∧
    Cmd.createOscillator 5 ∈
      (step ⟨true, false, 0⟩ initialState (Event.keyMouseDown 440)).2.2 ∧
    (step ⟨true, false, 0⟩ initialState (Event.keyMouseDown 440)).2.1.audioContext =
      some 4 := by
  refine ⟨rfl, ?_, ?_, ?_, ?_, ?_⟩ <;>
    simp [step, stepFull, renderKeyMouseDown, setupAudio, handlePlayStop,
      handleFrequencyChange, applyActions, reducer, initialState]

/-- C5 amended: `setupAudio` is idempotent only across committed state. When
the snapshot already holds a context the call returns immediately with no
dispatched actions and no audio commands (so the existing handles stay as
they are); and whenever context creation is available, running `setupAudio` a
second time on the state produced by the first run is a complete no-op: no
second context, oscillator, gain or filter node is allocated. Two calls
inside one event handler instead read the same no-context snapshot and both
allocate — see the counterexample above. -/
theorem setupAudio_idempotent (host : Host) (s : SynthState) :
    (s.audioContext.isSome = true → setupAudio host s = (host, [], [])) ∧
    (host.ctxAvailable = true →
      setupAudio (setupAudio host s).1 (applyActions s (setupAudio host s).2.1) =
        ((setupAudio host s).1, [], [])) := by
  constructor
  · intro h
    simp [setupAudio, h]
  · intro hca
    rcases hctx : s.audioContext with _ | c
    · simp [setupAudio, hctx, hca, applyActions, reducer]
    · simp [setupAudio, hctx, applyActions]

/-- Witness for C5: a state holding context handle `5`, and the initial state
under an available host. -/
theorem setupAudio_idempotent_witness :
    ((initialState.audioContext.isSome = true →
        setupAudio ⟨true, false, 0⟩ initialState = (⟨true, false, 0⟩, [], [])) ∧
      ((true : Bool) = true →
        setupAudio (setupAudio ⟨true, false, 0⟩ initialState).1
            (applyActions initialState
              (setupAudio ⟨true, false, 0⟩ initialState).2.1) =
          ((setupAudio ⟨true, false, 0⟩ initialState).1, [], []))) ∧
    setupAudio (setupAudio ⟨true, false, 0⟩ initialState).1
        (applyActions initialState (setupAudio ⟨true, false, 0⟩ initialState).2.1) =
      ((setupAudio ⟨true, false, 0⟩ initialState).1, [], []) :=
  ⟨setupAudio_idempotent ⟨true, false, 0⟩ initialState,
    (setupAudio_idempotent ⟨true, false, 0⟩ initialState).2 rfl⟩

/-- C6: on a live graph (a context present in the snapshot), every play/stop
transition issues exactly an optional `resume` followed by one
`gain.gain.setTargetAtTime` with time constant `0.015 = 3/200` — target `0.5`
when starting, `0` when stopping — and no UI event whatsoever issues an
instantaneous `gain.gain.setValueAtTime` while a context is present. -/
theorem gainChanges_fadeOnly (host : Host) (s : SynthState) (e : Event) (c : Nat)
    (hctx : s.audioContext = some c) :
    (s.isPlaying = false →
      (handlePlayStop host s).2.2 =
        (if host.suspended then [Cmd.resume] else []) ++
          [Cmd.gainSetTargetAtTime (1/2) (3/200)]) ∧
    (s.isPlaying = true →
      (handlePlayStop host s).2.2 =
        (if host.suspended then [Cmd.resume] else []) ++
          [Cmd.gainSetTargetAtTime 0 (3/200)]) ∧
    (∀ g : ℚ, Cmd.gainSetValueAtTime g ∉ (stepFull host s e).2.2) := by
  refine ⟨?_, ?_, ?_⟩
  · intro hp
    simp [handlePlayStop, hctx, hp]
  · intro hp
    simp [handlePlayStop, hctx, hp]
  · intro g
    cases e with
    | keyMouseDown freq =>
      by_cases hp : s.isPlaying <;>
        by_cases hsus : host.suspended <;>
          simp [stepFull, renderKeyMouseDown, handleFrequencyChange,
            handlePlayStop, hctx, hp, hsus]
    | keyMouseUp =>
      by_cases hp : s.isPlaying <;>
        by_cases hsus : host.suspended <;>
          simp [stepFull, renderKeyMouseUp, handlePlayStop, hctx, hp, hsus]
    | playStopClick =>
      by_cases hp : s.isPlaying <;>
        by_cases hsus : host.suspended <;>
          simp [stepFull, handlePlayStop, hctx, hp, hsus]
    | frequencyKnob angle =>
      simp [stepFull, handleFrequencyChange]
    | filterKnob angle =>
      simp [stepFull, handleFilterChange]
    | waveformSelect w =>
      simp [stepFull, handleWaveformChange]

/-- Witness for C6: a concrete live state, not playing, play/stop click. -/
theorem gainChanges_fadeOnly_witness :
    liveState.audioContext = some 0 ∧
    (liveState.isPlaying = false →
      (handlePlayStop ⟨true, false, 4⟩ liveState).2.2 =
        (if (false : Bool) then [Cmd.resume] else []) ++
          [Cmd.gainSetTargetAtTime (1/2) (3/200)]) :=
  ⟨rfl,
    (gainChanges_fadeOnly ⟨true, false, 4⟩ liveState Event.playStopClick 0 rfl).1⟩

/-- C4 counterexample: pressing the 440 Hz key from the initial state (synth
stopped, no audio context yet) does NOT atomically transition to
`isPlaying = true`: the snapshot-reading `handlePlayStop` sees no context,
only runs `setupAudio` again, and never dispatches `SET_PLAYING`; the
resulting state still has `isPlaying = false` (the frequency is set to 440). -/
theorem renderKey_firstPress_counterexample :
    (440 : ℚ) ∈ keyboardFrequencies ∧
    initialState.isPlaying = false ∧ initialState.audioContext = none ∧
    (step ⟨true, false, 0⟩ initialState (Event.keyMouseDown 440)).2.1.isPlaying =
      false ∧
    (step ⟨true, false, 0⟩ initialState (Event.keyMouseDown 440)).2.1.frequency =
      440 := by
  refine ⟨?_, rfl, rfl, ?_, ?_⟩
  · simp [keyboardFrequencies]
  · simp [step, stepFull, renderKeyMouseDown, setupAudio, handlePlayStop,
      handleFrequencyChange, applyActions, reducer, initialState]
  · simp [step, stepFull, renderKeyMouseDown, setupAudio, handlePlayStop,
      handleFrequencyChange, applyActions, reducer, initialState]

/-- C4 amended: once a graph exists (a context is present in the render
snapshot), pressing a key with pitch `freq` while stopped transitions in one
batched intent to `isPlaying = true` with `frequency = freq`, and releasing it
while playing transitions to `isPlaying = false` with the frequency unchanged;
on the very first press, with no context in the snapshot, the handler creates
the graph and sets the frequency but leaves `isPlaying = false`. -/
theorem renderKey_pressRelease (host : Host) (s : SynthState) (freq : ℚ)
    (c : Nat) (hctx : s.audioContext = some c) :
    (s.isPlaying = false →
      (step host s (Event.keyMouseDown freq)).2.1.isPlaying = true ∧
      (step host s (Event.keyMouseDown freq)).2.1.frequency = freq) ∧
    (s.isPlaying = true →
      (step host s Event.keyMouseUp).2.1.isPlaying = false ∧
      (step host s Event.keyMouseUp).2.1.frequency = s.frequency) := by
  constructor
  · intro hp
    constructor <;>
      simp [step, stepFull, renderKeyMouseDown, handleFrequencyChange,
        handlePlayStop, applyActions, reducer, hctx, hp]
  · intro hp
    constructor <;>
      simp [step, stepFull, renderKeyMouseUp, handlePlayStop, applyActions,
        reducer, hctx, hp]

/-- Witness for C4's amended theorem: a live stopped state, key 440. -/
theorem renderKey_pressRelease_witness :
    liveState.audioContext = some 0 ∧
    (liveState.isPlaying = false →
      (step ⟨true, false, 4⟩ liveState (Event.keyMouseDown 440)).2.1.isPlaying =
        true ∧
      (step ⟨true, false, 4⟩ liveState (Event.keyMouseDown 440)).2.1.frequency =
        440) :=
  ⟨rfl, (renderKey_pressRelease ⟨true, false, 4⟩ liveState 440 0 rfl).1⟩

/-! ## The reachable-state invariant -/

/-- Helper: each of the twelve fixed key pitches lies in `[20, 2000]`. -/
theorem keyboardFrequencies_range (freq : ℚ) (h : freq ∈ keyboardFrequencies) :
    20 ≤ freq ∧ freq ≤ 2000 := by
  fin_cases h <;> constructor <;> norm_num

/-- The inductive invariant: no context implies not playing, and both
continuous parameters lie in their knob ranges. -/
def Inv (s : SynthState) : Prop :=
  (s.audioContext = none → s.isPlaying = false) ∧
  20 ≤ s.frequency ∧ s.frequency ≤ 2000 ∧
  20 ≤ s.filterFrequency ∧ s.filterFrequency ≤ 20000

/-- Helper: the invariant is preserved by every valid UI event under every
host behavior. -/
theorem inv_step (host : Host) (e : Event) (s : SynthState) (hs : Inv s)
    (hv : eventValid e) : Inv (step host s e).2.1 := by
  obtain ⟨hplay, hf1, hf2, hg1, hg2⟩ := hs
  cases e with
  | keyMouseDown freq =>
    obtain ⟨hr1, hr2⟩ := keyboardFrequencies_range freq hv
    rcases hctx : s.audioContext with _ | c
    · have hp : s.isPlaying = false := hplay hctx
      by_cases hca : host.ctxAvailable = true <;>
        simp [Inv, step, stepFull, renderKeyMouseDown, setupAudio,
          handlePlayStop, handleFrequencyChange, applyActions, reducer, hctx,
          hca, hp, hr1, hr2, hg1, hg2]
    · by_cases hp : s.isPlaying <;>
        simp [Inv, step, stepFull, renderKeyMouseDown, setupAudio,
          handlePlayStop, handleFrequencyChange, applyActions, reducer, hctx,
          hp, hr1, hr2, hg1, hg2]
  | keyMouseUp =>
    rcases hctx : s.audioContext with _ | c
    · have hp : s.isPlaying = false := hplay hctx
      simp [Inv, step, stepFull, renderKeyMouseUp, applyActions, hp, hplay,
        hf1, hf2, hg1, hg2]
    · by_cases hp : s.isPlaying <;>
        simp [Inv, step, stepFull, renderKeyMouseUp, handlePlayStop,
          applyActions, reducer, hctx, hp, hplay, hf1, hf2, hg1, hg2]
  | playStopClick =>
    rcases hctx : s.audioContext with _ | c
    · have hp : s.isPlaying = false := hplay hctx
      by_cases hca : host.ctxAvailable = true <;>
        simp [Inv, step, stepFull, handlePlayStop, setupAudio, applyActions,
          reducer, hctx, hca, hp, hf1, hf2, hg1, hg2]
    · by_cases hp : s.isPlaying <;>
        simp [Inv, step, stepFull, handlePlayStop, applyActions, reducer,
          hctx, hp, hf1, hf2, hg1, hg2]
  | frequencyKnob angle =>
    obtain ⟨hb1, hb2⟩ := angleToValue_mem_range 20 2000 angle (by norm_num)
    simp [Inv, step, stepFull, handleFrequencyChange, applyActions, reducer,
      hb1, hb2, hg1, hg2]
    exact hplay
  | filterKnob angle =>
    obtain ⟨hb1, hb2⟩ := angleToValue_mem_range 20 20000 angle (by norm_num)
    simp [Inv, step, stepFull, handleFilterChange, applyActions, reducer,
      hb1, hb2, hf1, hf2]
    exact hplay
  | waveformSelect w =>
    simp [Inv, step, stepFull, handleWaveformChange, applyActions, reducer,
      hf1, hf2, hg1, hg2]
    exact hplay

/-- Helper: every reachable state satisfies the invariant. -/
theorem reachable_inv (s : SynthState) (h : Reachable s) : Inv s := by
  induction h with
  | init =>
    refine ⟨fun _ => rfl, ?_, ?_, ?_, ?_⟩ <;> norm_num [initialState]
  | next host e s hr hv ih => exact inv_step host e s ih hv

/-- Helper: the payload of every `SET_FREQUENCY` dispatch of a valid event
lies in `[20, 2000]`, and the payload of every `SET_FILTER_FREQUENCY`
dispatch lies in `[20, 20000]`. -/
theorem dispatch_payload_range (host : Host) (s : SynthState) (e : Event)
    (v : ℚ) (hv : eventValid e) :
    (Action.setFrequency v ∈ (stepFull host s e).2.1 → 20 ≤ v ∧ v ≤ 2000) ∧
    (Action.setFilterFrequency v ∈ (stepFull host s e).2.1 →
      20 ≤ v ∧ v ≤ 20000) := by
  cases e with
  | keyMouseDown freq =>
    constructor
    · intro hm
      have hveq : v = freq := by
        rcases hctx : s.audioContext with _ | c <;>
          by_cases hca : host.ctxAvailable = true <;>
            by_cases hp : s.isPlaying <;>
              simp [stepFull, renderKeyMouseDown, setupAudio, handlePlayStop,
                handleFrequencyChange, hctx, hca, hp] at hm <;>
              exact hm
      exact hveq ▸ keyboardFrequencies_range freq hv
    · intro hm
      exfalso
      rcases hctx : s.audioContext with _ | c <;>
        by_cases hca : host.ctxAvailable = true <;>
          by_cases hp : s.isPlaying <;>
            simp [stepFull, renderKeyMouseDown, setupAudio, handlePlayStop,
              handleFrequencyChange, hctx, hca, hp] at hm
  | keyMouseUp =>
    constructor <;> intro hm <;> exfalso <;>
      rcases hctx : s.audioContext with _ | c <;>
        by_cases hca : host.ctxAvailable = true <;>
          by_cases hp : s.isPlaying <;>
            simp [stepFull, renderKeyMouseUp, setupAudio, handlePlayStop,
              hctx, hca, hp] at hm
  | playStopClick =>
    constructor <;> intro hm <;> exfalso <;>
      rcases hctx : s.audioContext with _ | c <;>
        by_cases hca : host.ctxAvailable = true <;>
          by_cases hp : s.isPlaying <;>
            simp [stepFull, setupAudio, handlePlayStop, hctx, hca, hp] at hm
  | frequencyKnob angle =>
    constructor <;> intro hm <;>
      simp [stepFull, handleFrequencyChange] at hm
    exact hm ▸ angleToValue_mem_range 20 2000 angle (by norm_num)
  | filterKnob angle =>
    constructor <;> intro hm <;>
      simp [stepFull, handleFilterChange] at hm
    exact hm ▸ angleToValue_mem_range 20 20000 angle (by norm_num)
  | waveformSelect w =>
    constructor <;> intro hm <;> exfalso <;>
      simp [stepFull, handleWaveformChange] at hm

/-- C1: every reachable state keeps `frequency` in `[20, 2000]` and
`filterFrequency` in `[20, 20000]`; moreover every dispatched write of either
value is already clamped into its range: the payload equals
`Math.max(lo, Math.min(hi, payload))` for the knob's bounds. -/
theorem synthState_ranges (s : SynthState) (host : Host) (e : Event) (v : ℚ)
    (h : Reachable s) (hv : eventValid e) :
    (20 ≤ s.frequency ∧ s.frequency ≤ 2000) ∧
    (20 ≤ s.filterFrequency ∧ s.filterFrequency ≤ 20000) ∧
    (Action.setFrequency v ∈ (stepFull host s e).2.1 →
      Max.max 20 (Min.min 2000 v) = v) ∧
    (Action.setFilterFrequency v ∈ (stepFull host s e).2.1 →
      Max.max 20 (Min.min 20000 v) = v) := by
  obtain ⟨_, hf1, hf2, hg1, hg2⟩ := reachable_inv s h
  obtain ⟨hw1, hw2⟩ := dispatch_payload_range host s e v hv
  refine ⟨⟨hf1, hf2⟩, ⟨hg1, hg2⟩, ?_, ?_⟩
  · intro hm
    obtain ⟨h1, h2⟩ := hw1 hm
    rw [min_eq_right h2, max_eq_right h1]
  · intro hm
    obtain ⟨h1, h2⟩ := hw2 hm
    rw [min_eq_right h2, max_eq_right h1]

/-- Witness for C1 at the initial state, a frequency-knob event at angle `0`
(value `1010`). -/
theorem synthState_ranges_witness :
    ((20 ≤ initialState.frequency ∧ initialState.frequency ≤ 2000) ∧
      (20 ≤ initialState.filterFrequency ∧
        initialState.filterFrequency ≤ 20000) ∧
      (Action.setFrequency (angleToValue 0 20 2000) ∈
          (stepFull ⟨true, false, 0⟩ initialState (Event.frequencyKnob 0)).2.1 →
        Max.max 20 (Min.min 2000 (angleToValue 0 20 2000)) =
          angleToValue 0 20 2000) ∧
      (Action.setFilterFrequency (angleToValue 0 20 2000) ∈
          (stepFull ⟨true, false, 0⟩ initialState (Event.frequencyKnob 0)).2.1 →
        Max.max 20 (Min.min 20000 (angleToValue 0 20 2000)) =
          angleToValue 0 20 2000)) ∧
    Max.max 20 (Min.min 2000 (angleToValue 0 20 2000)) = angleToValue 0 20 2000 :=
  ⟨synthState_ranges initialState ⟨true, false, 0⟩ (Event.frequencyKnob 0)
      (angleToValue 0 20 2000) Reachable.init trivial,
    (synthState_ranges initialState ⟨true, false, 0⟩ (Event.frequencyKnob 0)
      (angleToValue 0 20 2000) Reachable.init trivial).2.2.1
      (by simp [stepFull, handleFrequencyChange])⟩

/-! ## Error handling (C7) -/

/-- C7 counterexample: from the initial state, a play gesture whose context
creation fails leaves `isPlaying = false` with a populated error — but the
next play gesture, on which context creation succeeds (the context handle is
allocated), does NOT clear the error: no code path ever dispatches
`SET_ERROR` with an empty payload, so the error message persists. -/
theorem setupAudio_errorNotCleared_counterexample :
    ((step ⟨false, false, 0⟩ initialState Event.playStopClick).2.1.isPlaying =
        false ∧
      (step ⟨false, false, 0⟩ initialState Event.playStopClick).2.1.error =
        some "Failed to setup audio") ∧
    (step ⟨true, false, 0⟩
        (step ⟨false, false, 0⟩ initialState Event.playStopClick).2.1
        Event.playStopClick).2.1.audioContext = some 0 ∧
    (step ⟨true, false, 0⟩
        (step ⟨false, false, 0⟩ initialState Event.playStopClick).2.1
        Event.playStopClick).2.1.error ≠ none := by
  refine ⟨⟨?_, ?_⟩, ?_, ?_⟩ <;>
    simp [step, stepFull, handlePlayStop, setupAudio, applyActions, reducer,
      initialState]

/-- C7 amended: a failed `setupAudio` (context unavailable) leaves
`isPlaying = false` and populates the error field; a subsequent successful
`setupAudio` creates the graph but leaves the recorded error in place — the
error is never cleared. -/
theorem setupAudio_failure_error (host host2 : Host) (s : SynthState)
    (h : Reachable s) (hctx : s.audioContext = none)
    (hca : host.ctxAvailable = false) (hca2 : host2.ctxAvailable = true) :
    ((applyActions s (setupAudio host s).2.1).isPlaying = false ∧
      (applyActions s (setupAudio host s).2.1).error =
        some "Failed to setup audio") ∧
    (applyActions (applyActions s (setupAudio host s).2.1)
        (setupAudio host2 (applyActions s (setupAudio host s).2.1)).2.1).error =
      some "Failed to setup audio" := by
  have hp : s.isPlaying = false := (reachable_inv s h).1 hctx
  refine ⟨⟨?_, ?_⟩, ?_⟩ <;>
    simp [setupAudio, applyActions, reducer, hctx, hca, hca2, hp]

/-- Witness for C7's amended theorem at the initial state. -/
theorem setupAudio_failure_error_witness :
    (((applyActions initialState
          (setupAudio ⟨false, false, 0⟩ initialState).2.1).isPlaying = false ∧
        (applyActions initialState
            (setupAudio ⟨false, false, 0⟩ initialState).2.1).error =
          some "Failed to setup audio") ∧
      (applyActions
          (applyActions initialState
            (setupAudio ⟨false, false, 0⟩ initialState).2.1)
          (setupAudio ⟨true, false, 0⟩
            (applyActions initialState
              (setupAudio ⟨false, false, 0⟩ initialState).2.1)).2.1).error =
        some "Failed to setup audio") :=
  setupAudio_failure_error ⟨false, false, 0⟩ ⟨true, false, 0⟩ initialState
    Reachable.init rfl rfl rfl

/-! ## Knob listener lifecycle (C9)

The `useEffect` at App.js lines 97-113 registers the global
`mousemove`/`mouseup` listeners when the `CustomKnob` mounts and removes them
in the effect cleanup when it unmounts; pointer-down/up only toggle
`isDraggingRef` and never touch listener registration. `handleMouseMove`
returns immediately unless `isDraggingRef.current` is set and the knob element
exists (lines 73-74). -/

/-- Listener/drag status of one mounted-or-not `CustomKnob`. -/
structure KnobListenerState where
  mounted : Bool
  listenersRegistered : Bool
  dragging : Bool
deriving DecidableEq, Repr

/-- Before mount: nothing registered, not dragging. -/
def knobInit : KnobListenerState :=
  { mounted := false, listenersRegistered := false, dragging := false }

/-- Lifecycle and pointer events affecting one knob's listeners. -/
inductive KnobEvent
  | mount
  | pointerDown
  | pointerUp
  | unmount
deriving DecidableEq, Repr

/-- The knob's reaction: mount runs the `useEffect` body
(`document.addEventListener` for both listeners, fresh `isDraggingRef`),
unmount runs its cleanup (`document.removeEventListener` for both);
`handleMouseDown` sets `isDraggingRef` when the element exists, the global
`handleMouseUp` clears it. -/
def knobStep (s : KnobListenerState) (e : KnobEvent) : KnobListenerState :=
  match e with
  | .mount => { mounted := true, listenersRegistered := true, dragging := false }
  | .pointerDown => if s.mounted then { s with dragging := true } else s
  | .pointerUp => if s.listenersRegistered then { s with dragging := false } else s
  | .unmount =>
      { mounted := false, listenersRegistered := false, dragging := s.dragging }

/-- Run a sequence of knob events from the unmounted state. -/
def knobRun (es : List KnobEvent) : KnobListenerState :=
  es.foldl knobStep knobInit

/-- Whether `handleMouseMove` gets past its guard
(`if (!isDraggingRef.current || !knobRef.current) return;`) and emits a value. -/
def handleMouseMoveEmits (s : KnobListenerState) : Bool :=
  s.dragging && s.mounted

/-- C9 counterexample: immediately after mounting, before any pointer-down,
the global listeners ARE registered while no drag session is active — the
source registers them in a mount-scoped `useEffect`, not per drag session,
so "registered only while a drag session is active" fails. -/
theorem knobListeners_counterexample :
    (knobRun [KnobEvent.mount]).listenersRegistered = true ∧
    (knobRun [KnobEvent.mount]).dragging = false := by
  constructor <;> rfl

/-- C9 amended: the global listeners are registered exactly while the
component is mounted (registered on mount, removed on unmount), independent
of drag sessions; while no drag is active the registered move listener is
inert — its guard makes it return without emitting a value change. -/
theorem knobListeners_mountScoped (es : List KnobEvent) :
    ((knobRun es).listenersRegistered = (knobRun es).mounted) ∧
    ((knobRun es).dragging = false →
      handleMouseMoveEmits (knobRun es) = false) := by
  constructor
  · have key : ∀ (l : List KnobEvent) (s : KnobListenerState),
        s.listenersRegistered = s.mounted →
        (l.foldl knobStep s).listenersRegistered =
          (l.foldl knobStep s).mounted := by
      intro l
      induction l with
      | nil => exact fun s h => h
      | cons e t ih =>
        intro s h
        apply ih
        cases e <;> simp [knobStep] <;> split_ifs <;> simp [h]
    exact key es knobInit rfl
  · intro h
    simp [handleMouseMoveEmits, h]

/-- Witness for C9's amended theorem on the trace `[mount]`. -/
theorem knobListeners_mountScoped_witness :
    ((knobRun [KnobEvent.mount]).listenersRegistered =
        (knobRun [KnobEvent.mount]).mounted) ∧
    handleMouseMoveEmits (knobRun [KnobEvent.mount]) = false :=
  ⟨(knobListeners_mountScoped [KnobEvent.mount]).1,
    (knobListeners_mountScoped [KnobEvent.mount]).2 rfl⟩

end ZephSynth
